import Mathlib

/-
Verification of the tiller gateway and storage layer of appscode/helm.

Shallow embedding of:
  - pkg/tiller/server.go          (namespace SG: context-value-threading variant)
  - the return-value-threading variant of the same file (namespace P3)
  - client/clientset/fake/release.go   (FakeRelease.List)
  - the storage factory (NewStorage, ensureResource)

External collaborators (grpc transport, kubernetes clientset, token review,
base64, the stow object-store SDK) are modelled as explicit environment
records of functions / injected outcomes; machine behaviour of the Go code
itself is translated line by line.
-/

set_option maxHeartbeats 1000000

/-- grpc metadata.MD: a map from header name to a list of string values,
modelled as an association list. -/
abbrev MD := List (String × List String)

/-- Go map lookup `md[k]` returning the value and an ok flag, modelled as
an Option. -/
def mdLookup (md : MD) (k : String) : Option (List String) :=
  (md.find? (fun p => p.1 == k)).map (·.2)

/-- Modelled from the spec: the kube package's Authorization metadata key
(the `authorization` header); the kube package is not part of the provided
sources. -/
def kubeAuthorization : String := "authorization"

/-- authenticationapi.UserInfo: the verified identity.  The Go struct also
carries UID/Extra, which no code under scrutiny reads. -/
structure UserInfo where
  username : String
  groups : List String
deriving DecidableEq, Repr

/-- rest.Config, restricted to the fields the embedded code reads or
writes.  `pathPfx` embeds the Go field `Prefix`; `tlsCertData` embeds
`TLSClientConfig.CertData`. -/
structure RestConfig where
  host : String
  apiPath : String
  pathPfx : String
  bearerToken : String
  username : String
  password : String
  impersonate : String
  tlsCertData : String
deriving DecidableEq, Repr

/-- An x509 certificate, restricted to the one field read by the code:
`Subject.CommonName`. -/
structure Cert where
  subjectCommonName : String
deriving DecidableEq, Repr

/-- credentials.TLSInfo: carries `State.VerifiedChains`, a list of
verified certificate chains. -/
structure TLSInfo where
  verifiedChains : List (List Cert)
deriving DecidableEq, Repr

/-- peer.AuthInfo: either TLS credentials or some other transport
credential (the failing type assertion branch). -/
inductive AuthInfo where
  | tls (info : TLSInfo)
  | other
deriving DecidableEq, Repr

/-- peer.Peer as read by the code: just its AuthInfo. -/
structure Peer where
  authInfo : AuthInfo
deriving DecidableEq, Repr

/-- The context keys used with context.WithValue by the two variants of
the authentication file (kube.UserInfo, kube.UserClient, kube.SystemClient,
kube.UserClientConfig, kube.SystemClientConfig, kube.ImpersonateUser). -/
inductive CtxKey where
  | userInfo
  | userClient
  | systemClient
  | userClientConfig
  | systemClientConfig
  | impersonateUser
deriving DecidableEq, BEq, Repr

/-- The values stored under those keys: a UserInfo, a bare rest.Config, a
kube client built over a rest.Config, or the empty-struct impersonation
flag. -/
inductive CtxVal where
  | user (u : UserInfo)
  | config (c : RestConfig)
  | client (c : RestConfig)
  | flag
deriving DecidableEq, BEq, Repr

/-- golang.org/x/net/context.Context as observed by this code: optional
grpc metadata, optional peer information, and the list of WithValue
entries (most recent first). -/
structure Context where
  md : Option MD
  peer : Option Peer
  values : List (CtxKey × CtxVal)
deriving DecidableEq, Repr

/-- context.WithValue: a new context with one more key/value entry. -/
def Context.withValue (ctx : Context) (k : CtxKey) (v : CtxVal) : Context :=
  { ctx with values := (k, v) :: ctx.values }

/-- ctx.Value(k): the most recently stored value for a key, if any. -/
def ctxLookup (ctx : Context) (k : CtxKey) : Option CtxVal :=
  (ctx.values.find? (fun p => p.1 == k)).map (·.2)

/-- The errors produced by the gateway, tagged by the `errors.New` /
`fmt.Errorf` site that creates them. -/
inductive TillerError where
  | missingMetadata
  | unknownScheme
  | versionMismatch (clientVersion serverVersion : String)
  | noPeer
  | noTLS
  | noVerifiedCert
  | clientSetError
  | tokenReviewError
  | notAuthenticated
  | base64DecodeError
  | missingUserOrPassword
  | serverVersionError
deriving DecidableEq, Repr

/-- The spec's error taxonomy (section 7). -/
inductive SpecErrorClass where
  | missingMetadata
  | unknownAuthScheme
  | unauthenticated
  | invalidCredentials
  | versionMismatch
deriving DecidableEq, Repr

/-- Modelled from the spec: how each concrete error site maps onto the
spec's taxonomy (bad/unverifiable credential vs malformed input). -/
def classify : TillerError → SpecErrorClass
  | .missingMetadata => .missingMetadata
  | .unknownScheme => .unknownAuthScheme
  | .versionMismatch _ _ => .versionMismatch
  | .noPeer => .unauthenticated
  | .noTLS => .unauthenticated
  | .noVerifiedCert => .unauthenticated
  | .clientSetError => .unauthenticated
  | .tokenReviewError => .unauthenticated
  | .notAuthenticated => .unauthenticated
  | .serverVersionError => .unauthenticated
  | .base64DecodeError => .invalidCredentials
  | .missingUserOrPassword => .invalidCredentials

/-- TokenReviewStatus: result of the cluster's token review. -/
structure TokenReviewStatus where
  authenticated : Bool
  user : UserInfo
deriving DecidableEq, Repr

/-- The cluster-side collaborators the verifiers call: clientset
construction, the token-review capability, the server-version probe, and
base64 decoding.  All are external to the sources and injected. -/
structure AuthEnv where
  clientSetOk : RestConfig → Bool
  tokenReview : String → Option TokenReviewStatus
  serverVersionOk : RestConfig → Bool
  base64Decode : String → Option String

/-- Go string slicing s[n:] on an ASCII-prefixed string, as a character
drop. -/
def strDropChars (s : String) (n : Nat) : String := String.mk (s.data.drop n)

/-- strings.HasPrefix over the underlying characters. -/
def hasPfx : List Char → List Char → Bool
  | [], _ => true
  | _ :: _, [] => false
  | p :: ps, c :: cs => p == c && hasPfx ps cs

/-- strings.HasPrefix(s, pre). -/
def goHasPfx (s pre : String) : Bool := hasPfx pre.data s.data

/-- strings.SplitN(token, ":", 2): position of the first colon, splitting
the characters there.  `none` when the string has no colon. -/
def splitAtFirstColon : List Char → Option (List Char × List Char)
  | [] => none
  | c :: cs =>
    if c = ':' then some ([], cs)
    else
      match splitAtFirstColon cs with
      | some (l, r) => some (c :: l, r)
      | none => none

/-- getUserPasswordFromBasicAuth (identical in both variants of the file):
SplitN at the first colon; two fragments give (user, password), otherwise
both results are empty. -/
def getUserPasswordFromBasicAuth (token : String) : String × String :=
  match splitAtFirstColon token.data with
  | some (u, p) => (String.mk u, String.mk p)
  | none => ("", "")

/-- strings.Split(s, "/"): split at every slash, keeping empty fragments,
over the underlying characters. -/
def splitOnSlash : List Char → List (List Char)
  | [] => [[]]
  | c :: cs =>
    if c = '/' then [] :: splitOnSlash cs
    else
      match splitOnSlash cs with
      | [] => [[c]]
      | f :: rest => (c :: f) :: rest

/-- splitMethod: a full method of shape /service/method yields
(service, method); anything that does not split into exactly three
fragments yields ("unknown", "unknown"). -/
def splitMethod (fullMethod : String) : String × String :=
  match (splitOnSlash fullMethod.data).map String.mk with
  | [_, a, b] => (a, b)
  | _ => ("unknown", "unknown")

/-- versionFromContext: the first value of the x-helm-api-client metadata
key, or "" when metadata or the key or a value is absent. -/
def versionFromContext (ctx : Context) : String :=
  match ctx.md with
  | some md =>
    match mdLookup md "x-helm-api-client" with
    | some (v :: _) => v
    | some [] => ""
    | none => ""
  | none => ""

/-- checkClientVersion: version.IsCompatible(client, server) gates the
call; the compatibility predicate and the server's own version live
outside the sources and are passed in. -/
def checkClientVersion (isCompatible : String → String → Bool) (serverVersion : String)
    (ctx : Context) : Option TillerError :=
  let clientVersion := versionFromContext ctx
  if !(isCompatible clientVersion serverVersion) then
    some (.versionMismatch clientVersion serverVersion)
  else none

/-- The user rest.Config the basic verifier builds: Host/APIPath/Prefix
copied from the system config, Username/Password set to the presented
credentials, plus the system TLS certificate data. -/
def basicUserCfg (syscfg : RestConfig) (u p : String) : RestConfig :=
  { host := syscfg.host, apiPath := syscfg.apiPath, pathPfx := syscfg.pathPfx,
    bearerToken := "", username := u, password := p, impersonate := "",
    tlsCertData := syscfg.tlsCertData }

/-- The user rest.Config the bearer verifier builds: Host/APIPath/Prefix
copied from the system config, BearerToken set to the presented token,
plus the system TLS certificate data. -/
def bearerUserCfg (syscfg : RestConfig) (token : String) : RestConfig :=
  { host := syscfg.host, apiPath := syscfg.apiPath, pathPfx := syscfg.pathPfx,
    bearerToken := token, username := "", password := "", impersonate := "",
    tlsCertData := syscfg.tlsCertData }

namespace P3

/-- checkBearerAuth (return-value variant): strip "Bearer ", build the
system clientset, submit a token review, reject unauthenticated results,
and return the identity plus a bearer-token user config. -/
def checkBearerAuth (env : AuthEnv) (h : String) (syscfg : RestConfig) :
    Except TillerError (UserInfo × RestConfig) :=
  let token := strDropChars h 7
  if !(env.clientSetOk syscfg) then .error .clientSetError
  else
    match env.tokenReview token with
    | none => .error .tokenReviewError
    | some result =>
      if !result.authenticated then .error .notAuthenticated
      else .ok (result.user, bearerUserCfg syscfg token)

/-- checkBasicAuth (return-value variant): base64-decode the payload after
"Basic ", split user:password, reject empty fields, build the user config,
build a clientset from it and probe the server version with it; only then
return the identity plus that user config. -/
def checkBasicAuth (env : AuthEnv) (h : String) (syscfg : RestConfig) :
    Except TillerError (UserInfo × RestConfig) :=
  match env.base64Decode (strDropChars h 6) with
  | none => .error .base64DecodeError
  | some basicAuth =>
    let up := getUserPasswordFromBasicAuth basicAuth
    if up.1 = "" ∨ up.2 = "" then .error .missingUserOrPassword
    else
      let usrcfg := basicUserCfg syscfg up.1 up.2
      if !(env.clientSetOk usrcfg) then .error .clientSetError
      else if !(env.serverVersionOk usrcfg) then .error .serverVersionError
      else .ok (⟨up.1, []⟩, usrcfg)

/-- checkClientCert (return-value variant): require peer info, TLS
credentials and a nonempty first verified chain; identity is the leaf
certificate's subject common name; the user config is the system config
with Impersonate set to that common name. -/
def checkClientCert (ctx : Context) (syscfg : RestConfig) :
    Except TillerError (UserInfo × RestConfig) :=
  match ctx.peer with
  | none => .error .noPeer
  | some p =>
    match p.authInfo with
    | .other => .error .noTLS
    | .tls t =>
      match t.verifiedChains with
      | [] => .error .noVerifiedCert
      | chain :: _ =>
        match chain with
        | [] => .error .noVerifiedCert
        | c :: _ =>
          .ok (⟨c.subjectCommonName, []⟩,
               { syscfg with impersonate := c.subjectCommonName })

/-- The scheme dispatch shared shape of authenticate: absent/empty
authorization header routes to the certificate verifier, "Bearer " to the
bearer verifier, "Basic " to the basic verifier, anything else is an
unknown scheme. -/
def authDispatch (env : AuthEnv) (ctx : Context) (md : MD) (syscfg : RestConfig) :
    Except TillerError (UserInfo × RestConfig) :=
  match mdLookup md kubeAuthorization with
  | none => checkClientCert ctx syscfg
  | some [] => checkClientCert ctx syscfg
  | some (h :: _) =>
    if h = "" then checkClientCert ctx syscfg
    else if goHasPfx h "Bearer " then checkBearerAuth env h syscfg
    else if goHasPfx h "Basic " then checkBasicAuth env h syscfg
    else .error .unknownScheme

/-- authenticate (return-value variant): missing metadata fails; on
verifier success the returned context is the original plus WithValue
entries for kube.UserInfo, kube.UserClientConfig and
kube.SystemClientConfig. -/
def authenticate (env : AuthEnv) (ctx : Context) (syscfg : RestConfig) :
    Except TillerError Context :=
  match ctx.md with
  | none => .error .missingMetadata
  | some md =>
    match authDispatch env ctx md syscfg with
    | .error e => .error e
    | .ok (user, usrcfg) =>
      .ok (((ctx.withValue .userInfo (.user user)).withValue
              .userClientConfig (.config usrcfg)).withValue
              .systemClientConfig (.config syscfg))

end P3

namespace SG

/-- checkClientCert (context-value variant): returns only an error.  Its
Go body additionally builds the UserInfo, the impersonating user config
and a context.WithValue chain carrying kube.UserInfo, kube.UserClient,
kube.SystemClient and kube.ImpersonateUser, but binds them to the local
ctx parameter, which is never returned. -/
def checkClientCert (ctx : Context) (syscfg : RestConfig) : Option TillerError :=
  match ctx.peer with
  | none => some .noPeer
  | some p =>
    match p.authInfo with
    | .other => some .noTLS
    | .tls t =>
      match t.verifiedChains with
      | [] => some .noVerifiedCert
      | chain :: _ =>
        match chain with
        | [] => some .noVerifiedCert
        | _ :: _ =>
          let _ := syscfg
          none

/-- checkBearerAuth (context-value variant): returns only an error; the
WithValue chain its Go body builds is likewise bound to a discarded
local. -/
def checkBearerAuth (env : AuthEnv) (h : String) (syscfg : RestConfig) :
    Option TillerError :=
  let token := strDropChars h 7
  if !(env.clientSetOk syscfg) then some .clientSetError
  else
    match env.tokenReview token with
    | none => some .tokenReviewError
    | some result =>
      if !result.authenticated then some .notAuthenticated
      else none

/-- checkBasicAuth (context-value variant): returns only an error; the
WithValue chain its Go body builds is likewise bound to a discarded
local. -/
def checkBasicAuth (env : AuthEnv) (h : String) (syscfg : RestConfig) :
    Option TillerError :=
  match env.base64Decode (strDropChars h 6) with
  | none => some .base64DecodeError
  | some basicAuth =>
    let up := getUserPasswordFromBasicAuth basicAuth
    if up.1 = "" ∨ up.2 = "" then some .missingUserOrPassword
    else
      let usrcfg := basicUserCfg syscfg up.1 up.2
      if !(env.clientSetOk usrcfg) then some .clientSetError
      else if !(env.serverVersionOk usrcfg) then some .serverVersionError
      else none

/-- The scheme dispatch of authenticate (context-value variant); same
routing as the return-value variant but the verifiers yield only an
error. -/
def authDispatch (env : AuthEnv) (ctx : Context) (md : MD) (syscfg : RestConfig) :
    Option TillerError :=
  match mdLookup md kubeAuthorization with
  | none => checkClientCert ctx syscfg
  | some [] => checkClientCert ctx syscfg
  | some (h :: _) =>
    if h = "" then checkClientCert ctx syscfg
    else if goHasPfx h "Bearer " then checkBearerAuth env h syscfg
    else if goHasPfx h "Basic " then checkBasicAuth env h syscfg
    else some .unknownScheme

/-- Folding the (ctx, err) pair that Go's authenticate returns into the
caller's view: a non-nil error fails the call, otherwise the context is
handed on. -/
def errToCtx (ctx : Context) : Option TillerError → Except TillerError Context
  | some e => .error e
  | none => .ok ctx

/-- authenticate (context-value variant): `return ctx, err` where ctx is
the ORIGINAL context - none of the WithValue chains built inside the
verifiers escape them. -/
def authenticate (env : AuthEnv) (ctx : Context) (syscfg : RestConfig) :
    Except TillerError Context :=
  match ctx.md with
  | none => .error .missingMetadata
  | some md => errToCtx ctx (authDispatch env ctx md syscfg)

end SG

/-- grpc.UnaryServerInfo as read by the interceptor: the full method
name. -/
structure UnaryServerInfo where
  fullMethod : String
deriving DecidableEq, Repr

/-- grpc.StreamServerInfo as received by the stream interceptor (never
read by it). -/
structure StreamServerInfo where
  fullMethod : String
deriving DecidableEq, Repr

/-- grpc.ServerStream: its context plus its operations, each modelled as
a response function of the underlying transport. -/
structure ServerStream (Msg Err : Type) where
  ctx : Context
  recvMsg : Msg → Option Err
  sendMsg : Msg → Option Err
  sendHeader : MD → Option Err
  setHeader : MD → Option Err
  setTrailer : MD → Unit

/-- serverStreamWrapper: the original stream plus the modified context. -/
structure serverStreamWrapper (Msg Err : Type) where
  ss : ServerStream Msg Err
  ctx : Context

/-- Context() of the wrapper: the modified context, not the stream's. -/
def wrapperContext {Msg Err : Type} (w : serverStreamWrapper Msg Err) : Context :=
  w.ctx

/-- RecvMsg of the wrapper: straight delegation. -/
def wrapperRecvMsg {Msg Err : Type} (w : serverStreamWrapper Msg Err) (m : Msg) :
    Option Err :=
  w.ss.recvMsg m

/-- SendMsg of the wrapper: straight delegation. -/
def wrapperSendMsg {Msg Err : Type} (w : serverStreamWrapper Msg Err) (m : Msg) :
    Option Err :=
  w.ss.sendMsg m

/-- SendHeader of the wrapper: straight delegation. -/
def wrapperSendHeader {Msg Err : Type} (w : serverStreamWrapper Msg Err) (md : MD) :
    Option Err :=
  w.ss.sendHeader md

/-- SetHeader of the wrapper: straight delegation. -/
def wrapperSetHeader {Msg Err : Type} (w : serverStreamWrapper Msg Err) (md : MD) :
    Option Err :=
  w.ss.setHeader md

/-- SetTrailer of the wrapper: straight delegation. -/
def wrapperSetTrailer {Msg Err : Type} (w : serverStreamWrapper Msg Err) (md : MD) :
    Unit :=
  w.ss.setTrailer md

/-- newUnaryInterceptor's returned interceptor: version-check with a
GetVersion whitelist, then authenticate, then the handler on the
authenticated context. -/
def newUnaryInterceptor {Req Resp : Type} (isCompatible : String → String → Bool)
    (serverVersion : String) (env : AuthEnv) (syscfg : RestConfig)
    (ctx : Context) (req : Req) (info : UnaryServerInfo)
    (handler : Context → Req → Except TillerError Resp) :
    Except TillerError Resp :=
  let proceed : Except TillerError Resp :=
    match SG.authenticate env ctx syscfg with
    | .error e => .error e
    | .ok ctx2 => handler ctx2 req
  match checkClientVersion isCompatible serverVersion ctx with
  | some e =>
    if (splitMethod info.fullMethod).2 ≠ "GetVersion" then .error e
    else proceed
  | none => proceed

/-- newStreamInterceptor's returned interceptor: version-check (no
whitelist), then authenticate, then the handler on a wrapper carrying the
authenticated context.  The info parameter is never read. -/
def newStreamInterceptor {Msg Err : Type} (isCompatible : String → String → Bool)
    (serverVersion : String) (env : AuthEnv) (syscfg : RestConfig)
    (ss : ServerStream Msg Err) (info : StreamServerInfo)
    (handler : serverStreamWrapper Msg Err → Option TillerError) :
    Option TillerError :=
  let _ := info
  let ctx := ss.ctx
  match checkClientVersion isCompatible serverVersion ctx with
  | some e => some e
  | none =>
    match SG.authenticate env ctx syscfg with
    | .error e => some e
    | .ok ctx2 => handler ⟨ss, ctx2⟩

/-- aci.Release as the fake client reads it: name, namespace and the
label mapping (the opaque payload plays no role in List). -/
structure Release where
  name : String
  ns : String
  labels : List (String × String)
deriving DecidableEq, Repr

/-- A label-selector error placeholder for the fake's error channel. -/
structure TestErr where
  msg : String
deriving DecidableEq, Repr

/-- labels.Set lookup: the value stored under a label key. -/
def labelsGet (lbls : List (String × String)) (k : String) : Option String :=
  (lbls.find? (fun p => p.1 == k)).map (·.2)

/-- Modelled from the spec: the k8s labels.Selector collaborator, reduced
to the cases the spec exercises - labels.Everything() matching every
label set, and an equality selector matching label sets that contain
every required pair. -/
inductive Selector where
  | everything
  | eqSelector (pairs : List (String × String))
deriving DecidableEq, Repr

/-- Selector.Matches(labels.Set(item.Labels)). -/
def selectorMatches : Selector → List (String × String) → Bool
  | .everything, _ => true
  | .eqSelector ps, lbls => ps.all (fun p => labelsGet lbls p.1 == some p.2)

/-- FakeRelease.List: the fake's reaction chain (Invokes) yields an
object and an error; a nil object returns the error alone; otherwise the
returned list keeps exactly the items whose labels match the extracted
selector, a nil selector standing for labels.Everything(). -/
def fakeReleaseList (invokeObj : Option (List Release)) (invokeErr : Option TestErr)
    (sel : Option Selector) : Option (List Release) × Option TestErr :=
  match invokeObj with
  | none => (none, invokeErr)
  | some items =>
    let label := match sel with
      | none => Selector.everything
      | some s => s
    (some (items.filter (fun item => selectorMatches label item.labels)), invokeErr)

/-- StoreType constants of the storage factory. -/
def StorageMemory : String := "memory"

/-- StoreType constant: the config-object backend. -/
def StorageConfigMap : String := "configmap"

/-- StoreType constant: the custom-resource backend. -/
def StorageInlineTPR : String := "inline-tpr"

/-- StoreType constant: the object-store backend indexed by a custom
resource. -/
def StorageObjectStoreTPR : String := "object-store-tpr"

/-- Modelled from the spec: the stow provider kind constants of the
external object-store SDK. -/
def s3Kind : String := "s3"

/-- Modelled from the spec: stow provider kind for the google backend. -/
def gcsKind : String := "google"

/-- Modelled from the spec: stow provider kind for the azure backend. -/
def azureKind : String := "azure"

/-- Modelled from the spec: stow provider kind for the swift backend. -/
def swiftKind : String := "swift"

/-- Modelled from the spec: stow s3 configuration key names. -/
def stowS3AccessKeyID : String := "access_key_id"

/-- Modelled from the spec: stow s3 endpoint key. -/
def stowS3Endpoint : String := "endpoint"

/-- Modelled from the spec: stow s3 region key. -/
def stowS3Region : String := "region"

/-- Modelled from the spec: stow s3 secret key. -/
def stowS3SecretKey : String := "secret_key"

/-- Modelled from the spec: stow google json credential key. -/
def stowGcsJSON : String := "json"

/-- Modelled from the spec: stow google project id key. -/
def stowGcsProjectId : String := "project_id"

/-- Modelled from the spec: stow azure account key. -/
def stowAzureAccount : String := "account"

/-- Modelled from the spec: stow azure key. -/
def stowAzureKey : String := "key"

/-- Modelled from the spec: stow swift key. -/
def stowSwiftKey : String := "key"

/-- Modelled from the spec: stow swift tenant auth url key. -/
def stowSwiftTenantAuthURL : String := "tenant_auth_url"

/-- Modelled from the spec: stow swift tenant name key. -/
def stowSwiftTenantName : String := "tenant_name"

/-- Modelled from the spec: stow swift username key. -/
def stowSwiftUsername : String := "username"

/-- StoreOptions: the discriminated backend configuration.  `storagePfx`
embeds the Go field StoragePrefix. -/
structure StoreOptions where
  storeType : String
  objectStoreProvider : String
  s3ConfigAccessKeyID : String
  s3ConfigEndpoint : String
  s3ConfigRegion : String
  s3ConfigSecretKey : String
  gcsConfigJSONKeyPath : String
  gcsConfigProjectId : String
  azureConfigAccount : String
  azureConfigKey : String
  swiftConfigKey : String
  swiftConfigTenantAuthURL : String
  swiftConfigTenantName : String
  swiftConfigUsername : String
  container : String
  storagePfx : String
deriving DecidableEq, Repr

/-- The outcome of the Get probing the release ThirdPartyResource. -/
inductive GetRes where
  | found
  | notFound
  | otherErr
deriving DecidableEq, Repr

/-- The outcome of creating the release ThirdPartyResource. -/
inductive CreateRes where
  | created
  | alreadyExists
  | otherErr
deriving DecidableEq, Repr

/-- A computation that either survives or reaches os.Exit(1). -/
inductive Fatal (α : Type) where
  | exit
  | ok (a : α)
deriving DecidableEq, Repr

/-- ensureResource: Get the release ThirdPartyResource; only when that
reports not-found, Create it, and exit the process on any Create error
(already-exists included); every other Get outcome falls through and the
function returns normally. -/
def ensureResource (g : GetRes) (c : CreateRes) : Fatal Unit :=
  match g with
  | .notFound =>
    match c with
    | .created => .ok ()
    | .alreadyExists => .exit
    | .otherErr => .exit
  | .found => .ok ()
  | .otherErr => .ok ()

/-- The storage driver the factory wires (driver-internal state is out of
scope; the constructor arguments the factory passes are kept). -/
inductive Driver where
  | memory
  | configMaps (ns : String)
  | releases (ns : String)
  | objectStore (ns container pfx : String) (cfg : List (String × String))
deriving DecidableEq, Repr

/-- The collaborators NewStorage calls: kube client bootstrap, the
ThirdPartyResource get/create outcomes, the filesystem read of the google
json key, the stow dial and container resolution, and the resolved tiller
namespace. -/
structure StorageEnv where
  clientConfigOk : Bool
  clientSetOk : Bool
  extensionsClientOk : Bool
  getTPR : GetRes
  createTPR : CreateRes
  readFile : String → Option String
  dialOk : String → List (String × String) → Bool
  containerOk : Bool
  ns : String

/-- The stow ConfigMap the s3 arm of NewStorage assembles: only the four
s3 option fields are consulted, each added only when nonempty. -/
def s3StowCfg (ak ep rg sk : String) : List (String × String) :=
  (if ak ≠ "" then [(stowS3AccessKeyID, ak)] else [])
    ++ (if ep ≠ "" then [(stowS3Endpoint, ep)] else [])
    ++ (if rg ≠ "" then [(stowS3Region, rg)] else [])
    ++ (if sk ≠ "" then [(stowS3SecretKey, sk)] else [])

/-- The stow ConfigMap the google arm assembles: the json key file
contents (exiting when the configured path cannot be read) and the
project id, each only when the option is nonempty. -/
def gcsStowCfg (readFile : String → Option String) (path pid : String) :
    Fatal (List (String × String)) :=
  match (if path ≠ "" then
           match readFile path with
           | none => Fatal.exit
           | some jsonKey => Fatal.ok [(stowGcsJSON, jsonKey)]
         else Fatal.ok []) with
  | .exit => .exit
  | .ok base =>
    .ok (base ++ (if pid ≠ "" then [(stowGcsProjectId, pid)] else []))

/-- The stow ConfigMap the azure arm assembles from the two azure option
fields. -/
def azureStowCfg (acct key : String) : List (String × String) :=
  (if acct ≠ "" then [(stowAzureAccount, acct)] else [])
    ++ (if key ≠ "" then [(stowAzureKey, key)] else [])

/-- The stow ConfigMap the swift arm assembles from the four swift option
fields. -/
def swiftStowCfg (key authURL tenant user : String) : List (String × String) :=
  (if key ≠ "" then [(stowSwiftKey, key)] else [])
    ++ (if authURL ≠ "" then [(stowSwiftTenantAuthURL, authURL)] else [])
    ++ (if tenant ≠ "" then [(stowSwiftTenantName, tenant)] else [])
    ++ (if user ≠ "" then [(stowSwiftUsername, user)] else [])

/-- The provider switch of the object-store arm: each provider reads only
its own option fields; an unknown provider exits the process. -/
def buildStowCfg (env : StorageEnv) (opts : StoreOptions) :
    Fatal (List (String × String)) :=
  if opts.objectStoreProvider = s3Kind then
    .ok (s3StowCfg opts.s3ConfigAccessKeyID opts.s3ConfigEndpoint
          opts.s3ConfigRegion opts.s3ConfigSecretKey)
  else if opts.objectStoreProvider = gcsKind then
    gcsStowCfg env.readFile opts.gcsConfigJSONKeyPath opts.gcsConfigProjectId
  else if opts.objectStoreProvider = azureKind then
    .ok (azureStowCfg opts.azureConfigAccount opts.azureConfigKey)
  else if opts.objectStoreProvider = swiftKind then
    .ok (swiftStowCfg opts.swiftConfigKey opts.swiftConfigTenantAuthURL
          opts.swiftConfigTenantName opts.swiftConfigUsername)
  else .exit

/-- NewStorage: resolve the kube client (exiting on failure), then switch
on the store type - memory and configmap construct their drivers
directly, the two TPR-backed kinds run ensureResource first, the
object-store kind additionally assembles the provider config, dials the
provider and resolves the container (exiting on any failure); a store
type outside the four constants returns an error instead of a driver. -/
def NewStorage (env : StorageEnv) (opts : StoreOptions) :
    Fatal (Except String Driver) :=
  if !env.clientConfigOk then .exit
  else if !env.clientSetOk then .exit
  else if opts.storeType = StorageMemory then .ok (.ok .memory)
  else if opts.storeType = StorageConfigMap then .ok (.ok (.configMaps env.ns))
  else if opts.storeType = StorageInlineTPR then
    match ensureResource env.getTPR env.createTPR with
    | .exit => .exit
    | .ok _ =>
      if !env.extensionsClientOk then .exit
      else .ok (.ok (.releases env.ns))
  else if opts.storeType = StorageObjectStoreTPR then
    match ensureResource env.getTPR env.createTPR with
    | .exit => .exit
    | .ok _ =>
      match buildStowCfg env opts with
      | .exit => .exit
      | .ok stowCfg =>
        if !env.dialOk opts.objectStoreProvider stowCfg then .exit
        else if !env.containerOk then .exit
        else if !env.extensionsClientOk then .exit
        else .ok (.ok (.objectStore env.ns opts.container opts.storagePfx stowCfg))
  else .ok (.error ("Unknow store type " ++ opts.storeType))

/-- An environment whose cluster collaborators all succeed trivially and
whose token review / base64 decode report failure; used for concrete
evaluations that never reach them. -/
def envTriv : AuthEnv :=
  ⟨fun _ => true, fun _ => none, fun _ => true, fun _ => none⟩

/-- An environment whose server-version probe always fails and whose
base64 decoder knows exactly the payload dTpw (= u:p). -/
def envBasic : AuthEnv :=
  ⟨fun _ => true, fun _ => none, fun _ => false,
   fun s => if s = "dTpw" then some "u:p" else none⟩

/-- A concrete system rest.Config. -/
def cfg0 : RestConfig :=
  ⟨"https://10.0.0.1", "/api", "", "", "", "", "", "cadata"⟩

/-- A concrete transport context of a certificate-authenticated call:
metadata present but without an authorization header, a peer with a
verified chain whose leaf common name is alice, and no stored values. -/
def certPeerCtx : Context :=
  ⟨some [], some ⟨AuthInfo.tls ⟨[[⟨"alice"⟩]]⟩⟩, []⟩

/-- Metadata declaring the client version v0.0.0. -/
def mdIncompat : MD := [("x-helm-api-client", ["v0.0.0"])]

/-- A context carrying only the v0.0.0 client-version header. -/
def ctxIncompat : Context := ⟨some mdIncompat, none, []⟩

/-- A concrete server stream whose context carries the v0.0.0 version
header. -/
def ssGV : ServerStream Unit TillerError :=
  ⟨ctxIncompat, fun _ => none, fun _ => none, fun _ => none, fun _ => none,
   fun _ => ()⟩

/-- A compatibility predicate that rejects every client version. -/
def neverCompatible : String → String → Bool := fun _ _ => false

/-- A release labelled tier=web. -/
def relWeb : Release := ⟨"web-1", "default", [("tier", "web")]⟩

/-- A release labelled tier=db. -/
def relDb : Release := ⟨"db-1", "default", [("tier", "db")]⟩

/-- A storage environment whose cluster and object-store collaborators
all succeed. -/
def envStor : StorageEnv :=
  ⟨true, true, true, GetRes.found, CreateRes.created, fun _ => none,
   fun _ _ => true, true, "kube-system"⟩

/-- StoreOptions selecting the memory backend. -/
def optsMem : StoreOptions :=
  ⟨"memory", "", "", "", "", "", "", "", "", "", "", "", "", "", "", ""⟩

/-- StoreOptions with a store type outside the four known kinds. -/
def optsBogus : StoreOptions := { optsMem with storeType := "mysql" }

theorem strMk_data (s : String) : String.mk s.data = s := by
  cases s
  rfl

theorem splitAtFirstColon_of_not_mem (l : List Char) (hl : ':' ∉ l) :
    splitAtFirstColon l = none := by
  induction l with
  | nil => rfl
  | cons c cs ih =>
    have hc : ¬(c = ':') := fun hh => hl (hh ▸ List.mem_cons_self c cs)
    have hcs : ':' ∉ cs := fun hh => hl (List.mem_cons_of_mem c hh)
    simp [splitAtFirstColon, hc, ih hcs]

theorem splitAtFirstColon_append (l r : List Char) (hl : ':' ∉ l) :
    splitAtFirstColon (l ++ ':' :: r) = some (l, r) := by
  induction l with
  | nil => simp [splitAtFirstColon]
  | cons c cs ih =>
    have hc : ¬(c = ':') := fun hh => hl (hh ▸ List.mem_cons_self c cs)
    have hcs : ':' ∉ cs := fun hh => hl (List.mem_cons_of_mem c hh)
    simp [splitAtFirstColon, hc, ih hcs]

theorem goHasPfx_bearer_ne_empty (h : String) (hb : goHasPfx h "Bearer " = true) :
    h ≠ "" := by
  intro he
  subst he
  revert hb
  decide

theorem goHasPfx_basic_ne_empty (h : String) (hb : goHasPfx h "Basic " = true) :
    h ≠ "" := by
  intro he
  subst he
  revert hb
  decide

theorem hasPfx_basic_bearer (l : List Char)
    (hb : hasPfx ['B', 'a', 's', 'i', 'c', ' '] l = true) :
    hasPfx ['B', 'e', 'a', 'r', 'e', 'r', ' '] l = false := by
  match l with
  | [] => simp [hasPfx] at hb
  | [c1] => simp [hasPfx] at hb
  | c1 :: c2 :: rest =>
    simp only [hasPfx, Bool.and_eq_true, beq_iff_eq] at hb
    obtain ⟨h1, h2, -⟩ := hb
    subst h1
    subst h2
    simp [hasPfx]

theorem basic_not_bearer (h : String) (hb : goHasPfx h "Basic " = true) :
    goHasPfx h "Bearer " = false := by
  have hBasic : "Basic ".data = ['B', 'a', 's', 'i', 'c', ' '] := by decide
  have hBearer : "Bearer ".data = ['B', 'e', 'a', 'r', 'e', 'r', ' '] := by decide
  unfold goHasPfx at hb ⊢
  rw [hBasic] at hb
  rw [hBearer]
  exact hasPfx_basic_bearer h.data hb

/-- C1: For every call whose credential verifier succeeds, the execution
context handed to the handler is supposed to carry the derived UserInfo,
the derived user client config, the system client config and (certificate
path) the impersonation flag.  Evaluating the context-value variant at a
certificate-authenticated call shows authenticate succeeds yet returns
the ORIGINAL transport context, which carries none of those values: the
WithValue chains never escape the verifier functions. -/
theorem c1_authenticate_drops_derived_context :
    SG.authenticate envTriv certPeerCtx cfg0 = .ok certPeerCtx
  ∧ ctxLookup certPeerCtx CtxKey.userInfo = none
  ∧ ctxLookup certPeerCtx CtxKey.userClient = none
  ∧ ctxLookup certPeerCtx CtxKey.systemClient = none
  ∧ ctxLookup certPeerCtx CtxKey.impersonateUser = none :=
  ⟨rfl, rfl, rfl, rfl, rfl⟩

/-- C9: The stream wrapper overrides only the context accessor; RecvMsg,
SendMsg, SendHeader, SetHeader and SetTrailer return exactly the result
of the same operation on the underlying stream. -/
theorem c9_stream_wrapper_passthrough {Msg Err : Type} (ss : ServerStream Msg Err)
    (ctx : Context) (m : Msg) (md : MD) :
    wrapperContext ⟨ss, ctx⟩ = ctx
  ∧ wrapperRecvMsg ⟨ss, ctx⟩ m = ss.recvMsg m
  ∧ wrapperSendMsg ⟨ss, ctx⟩ m = ss.sendMsg m
  ∧ wrapperSendHeader ⟨ss, ctx⟩ md = ss.sendHeader md
  ∧ wrapperSetHeader ⟨ss, ctx⟩ md = ss.setHeader md
  ∧ wrapperSetTrailer ⟨ss, ctx⟩ md = ss.setTrailer md :=
  ⟨rfl, rfl, rfl, rfl, rfl, rfl⟩

/-- C10: Basic-credential parsing splits at the first colon only: for any
username without a colon and any password (colons allowed), parsing
u:p returns (u, p) unchanged; a payload without any colon parses to two
empty strings, and the basic verifier therefore rejects it with the
missing-username-or-password error. -/
theorem c10_basic_auth_split (u p s : String) :
    (':' ∉ u.data → getUserPasswordFromBasicAuth (u ++ ":" ++ p) = (u, p))
  ∧ (':' ∉ s.data → getUserPasswordFromBasicAuth s = ("", ""))
  ∧ (∀ env : AuthEnv, ∀ h : String, ∀ syscfg : RestConfig,
      ':' ∉ s.data → env.base64Decode (strDropChars h 6) = some s →
      P3.checkBasicAuth env h syscfg = .error .missingUserOrPassword) := by
  have hsplit : ∀ t : String, ':' ∉ t.data → getUserPasswordFromBasicAuth t = ("", "") := by
    intro t ht
    unfold getUserPasswordFromBasicAuth
    rw [splitAtFirstColon_of_not_mem t.data ht]
  refine ⟨fun hu => ?_, fun hs => hsplit s hs, fun env h syscfg hs hdec => ?_⟩
  · have hdata : (u ++ ":" ++ p).data = u.data ++ ':' :: p.data := by
      simp [String.data_append]
    unfold getUserPasswordFromBasicAuth
    rw [hdata, splitAtFirstColon_append u.data p.data hu]
  · unfold P3.checkBasicAuth
    rw [hdec]
    simp [hsplit s hs]

/-- C10 witness: the split evaluated at user / pa:ss and at a payload
with no colon. -/
theorem c10_basic_auth_split_witness :
    getUserPasswordFromBasicAuth ("user" ++ ":" ++ "pa:ss") = ("user", "pa:ss")
  ∧ getUserPasswordFromBasicAuth "nocolon" = ("", "") :=
  ⟨(c10_basic_auth_split "user" "pa:ss" "nocolon").1 (by decide),
   (c10_basic_auth_split "user" "pa:ss" "nocolon").2.1 (by decide)⟩

/-- C8 counterexample: the claim says an already-exists outcome of the
bootstrap creation is treated as success and a failure to reach the
cluster is fatal; the code exits on an already-exists Create error and
returns normally when the existence Get fails for a non-notfound
reason. -/
theorem c8_ensure_resource_counterexample :
    ensureResource GetRes.notFound CreateRes.alreadyExists = Fatal.exit
  ∧ ensureResource GetRes.otherErr CreateRes.created = Fatal.ok ()
  ∧ (Fatal.exit : Fatal Unit) ≠ Fatal.ok () :=
  ⟨rfl, rfl, by decide⟩

/-- C8 (amended): ensureResource creates the resource only when the
existence check reports not-found; a successful existence check is
success without creating; ANY Create failure - already-exists included -
is a fatal exit; a Get failure other than not-found is ignored and the
function returns normally. -/
theorem c8_ensure_resource_amended (g : GetRes) (c : CreateRes) :
    (g = GetRes.found → ensureResource g c = Fatal.ok ())
  ∧ (g = GetRes.otherErr → ensureResource g c = Fatal.ok ())
  ∧ (g = GetRes.notFound → c = CreateRes.created → ensureResource g c = Fatal.ok ())
  ∧ (g = GetRes.notFound → c ≠ CreateRes.created → ensureResource g c = Fatal.exit) := by
  refine ⟨fun hg => by subst hg; rfl,
          fun hg => by subst hg; rfl,
          fun hg hc => by subst hg; subst hc; rfl,
          fun hg hc => ?_⟩
  subst hg
  cases c with
  | created => exact absurd rfl hc
  | alreadyExists => rfl
  | otherErr => rfl

/-- C8 witness: the amended behaviour evaluated at a found resource and
at an already-exists race. -/
theorem c8_ensure_resource_amended_witness :
    ensureResource GetRes.found CreateRes.otherErr = Fatal.ok ()
  ∧ ensureResource GetRes.notFound CreateRes.alreadyExists = Fatal.exit :=
  ⟨(c8_ensure_resource_amended GetRes.found CreateRes.otherErr).1 rfl,
   (c8_ensure_resource_amended GetRes.notFound CreateRes.alreadyExists).2.2.2 rfl (by decide)⟩

/-- C6: FakeRelease.List retains exactly the items whose label mapping
matches the selector, and an absent selector (labels.Everything) or an
empty equality selector returns the backend's full set unchanged. -/
theorem c6_fake_list_filters (items : List Release) (e : Option TestErr)
    (sel : Option Selector) :
    (∃ res : List Release,
        (fakeReleaseList (some items) e sel).1 = some res
      ∧ ∀ r : Release, r ∈ res ↔ r ∈ items ∧
          selectorMatches (sel.getD Selector.everything) r.labels = true)
  ∧ ((sel = none ∨ sel = some (Selector.eqSelector [])) →
      (fakeReleaseList (some items) e sel).1 = some items) := by
  constructor
  · refine ⟨items.filter (fun item => selectorMatches (sel.getD Selector.everything) item.labels), ?_, ?_⟩
    · cases sel <;> rfl
    · intro r
      simp [List.mem_filter]
  · rintro (h | h) <;> subst h
    · have hall : (items.filter fun item => selectorMatches Selector.everything item.labels) = items :=
        List.filter_eq_self.mpr (fun a _ => rfl)
      simp [fakeReleaseList, hall]
    · have hall : (items.filter fun item => selectorMatches (Selector.eqSelector []) item.labels) = items :=
        List.filter_eq_self.mpr (fun a _ => rfl)
      simp [fakeReleaseList, hall]

/-- C6 witness: an absent selector returns the two-release backend set
unchanged. -/
theorem c6_fake_list_filters_witness :
    (fakeReleaseList (some [relWeb, relDb]) none none).1 = some [relWeb, relDb] :=
  (c6_fake_list_filters [relWeb, relDb] none none).2 (Or.inl rfl)

/-- C3: Authentication dispatch is exhaustive over the header material:
absent transport metadata fails with the missing-metadata error before
any verifier runs; an absent or empty authorization header routes to the
certificate verifier; a Bearer-prefixed value routes to the bearer
verifier; a Basic-prefixed value routes to the basic verifier; any other
non-empty value fails with the unknown-scheme error. -/
theorem c3_authenticate_dispatch (env : AuthEnv) (syscfg : RestConfig) (mdv : MD)
    (pr : Option Peer) (vals : List (CtxKey × CtxVal)) :
    (SG.authenticate env ⟨none, pr, vals⟩ syscfg = .error .missingMetadata)
  ∧ ((mdLookup mdv kubeAuthorization = none ∨ mdLookup mdv kubeAuthorization = some [] ∨
      (∃ t, mdLookup mdv kubeAuthorization = some ("" :: t))) →
      SG.authenticate env ⟨some mdv, pr, vals⟩ syscfg =
        SG.errToCtx ⟨some mdv, pr, vals⟩ (SG.checkClientCert ⟨some mdv, pr, vals⟩ syscfg))
  ∧ (∀ h t, mdLookup mdv kubeAuthorization = some (h :: t) →
      goHasPfx h "Bearer " = true →
      SG.authenticate env ⟨some mdv, pr, vals⟩ syscfg =
        SG.errToCtx ⟨some mdv, pr, vals⟩ (SG.checkBearerAuth env h syscfg))
  ∧ (∀ h t, mdLookup mdv kubeAuthorization = some (h :: t) →
      goHasPfx h "Basic " = true →
      SG.authenticate env ⟨some mdv, pr, vals⟩ syscfg =
        SG.errToCtx ⟨some mdv, pr, vals⟩ (SG.checkBasicAuth env h syscfg))
  ∧ (∀ h t, mdLookup mdv kubeAuthorization = some (h :: t) → h ≠ "" →
      goHasPfx h "Bearer " = false → goHasPfx h "Basic " = false →
      SG.authenticate env ⟨some mdv, pr, vals⟩ syscfg = .error .unknownScheme) := by
  refine ⟨rfl, fun hd => ?_, fun h t hlk hb => ?_, fun h t hlk hb => ?_,
          fun h t hlk hne hb1 hb2 => ?_⟩
  · rcases hd with hd | hd | ⟨t, hd⟩ <;> simp [SG.authenticate, SG.authDispatch, hd]
  · have hne := goHasPfx_bearer_ne_empty h hb
    simp [SG.authenticate, SG.authDispatch, hlk, hne, hb]
  · have hne := goHasPfx_basic_ne_empty h hb
    have hnb := basic_not_bearer h hb
    simp [SG.authenticate, SG.authDispatch, hlk, hne, hnb, hb]
  · simp [SG.authenticate, SG.authDispatch, hlk, hne, hb1, hb2, SG.errToCtx]

/-- C3 witness: the dispatch evaluated at a call with no metadata and at
a call whose authorization value carries an unknown scheme. -/
theorem c3_authenticate_dispatch_witness :
    SG.authenticate envTriv ⟨none, none, []⟩ cfg0 = .error .missingMetadata
  ∧ SG.authenticate envTriv ⟨some [(kubeAuthorization, ["Token abc"])], none, []⟩ cfg0
      = .error .unknownScheme :=
  ⟨(c3_authenticate_dispatch envTriv cfg0 [] none []).1,
   (c3_authenticate_dispatch envTriv cfg0 [(kubeAuthorization, ["Token abc"])] none []).2.2.2.2
     "Token abc" [] (by decide) (by decide) (by decide) (by decide)⟩

/-- C4: The certificate verifier fails (with an error of the
Unauthenticated class) when the call has no peer info, no TLS info, or an
empty verified chain; on success the identity's username is the leaf
certificate's subject common name and the derived user config is the
system config with its impersonation field set to that common name. -/
theorem c4_check_client_cert_spec (ctx : Context) (syscfg : RestConfig) :
    (ctx.peer = none →
        P3.checkClientCert ctx syscfg = .error .noPeer
      ∧ classify .noPeer = .unauthenticated)
  ∧ (∀ p : Peer, ctx.peer = some p → p.authInfo = AuthInfo.other →
        P3.checkClientCert ctx syscfg = .error .noTLS
      ∧ classify .noTLS = .unauthenticated)
  ∧ (∀ p t, ctx.peer = some p → p.authInfo = AuthInfo.tls t →
      t.verifiedChains = [] →
        P3.checkClientCert ctx syscfg = .error .noVerifiedCert
      ∧ classify .noVerifiedCert = .unauthenticated)
  ∧ (∀ p t rest, ctx.peer = some p → p.authInfo = AuthInfo.tls t →
      t.verifiedChains = [] :: rest →
        P3.checkClientCert ctx syscfg = .error .noVerifiedCert)
  ∧ (∀ p t c chain rest, ctx.peer = some p → p.authInfo = AuthInfo.tls t →
      t.verifiedChains = (c :: chain) :: rest →
        P3.checkClientCert ctx syscfg =
          .ok (⟨c.subjectCommonName, []⟩,
               { syscfg with impersonate := c.subjectCommonName })) := by
  refine ⟨fun hp => ⟨?_, rfl⟩, fun p hp ha => ⟨?_, rfl⟩,
          fun p t hp ha hv => ⟨?_, rfl⟩, fun p t rest hp ha hv => ?_,
          fun p t c chain rest hp ha hv => ?_⟩ <;>
    simp [P3.checkClientCert, *]

/-- C4 witness: the verifier evaluated at a call whose peer carries a
verified chain with leaf common name alice. -/
theorem c4_check_client_cert_spec_witness :
    P3.checkClientCert certPeerCtx cfg0 =
      .ok (⟨"alice", []⟩, { cfg0 with impersonate := "alice" }) :=
  (c4_check_client_cert_spec certPeerCtx cfg0).2.2.2.2
    ⟨AuthInfo.tls ⟨[[⟨"alice"⟩]]⟩⟩ ⟨[[⟨"alice"⟩]]⟩ ⟨"alice"⟩ [] [] rfl rfl rfl

/-- C5: The basic verifier fails with an InvalidCredentials-class error
when base64 decoding fails or either decoded field is empty (returning no
identity); otherwise it builds the user config from the credentials and
probes the server version with it, surfacing a probe failure as an
Unauthenticated-class error instead of accepting the call. -/
theorem c5_check_basic_auth_spec (env : AuthEnv) (h : String) (syscfg : RestConfig) :
    (env.base64Decode (strDropChars h 6) = none →
        P3.checkBasicAuth env h syscfg = .error .base64DecodeError
      ∧ classify .base64DecodeError = .invalidCredentials)
  ∧ (∀ s, env.base64Decode (strDropChars h 6) = some s →
      ((getUserPasswordFromBasicAuth s).1 = "" ∨ (getUserPasswordFromBasicAuth s).2 = "") →
        P3.checkBasicAuth env h syscfg = .error .missingUserOrPassword
      ∧ classify .missingUserOrPassword = .invalidCredentials)
  ∧ (∀ s, env.base64Decode (strDropChars h 6) = some s →
      (getUserPasswordFromBasicAuth s).1 ≠ "" →
      (getUserPasswordFromBasicAuth s).2 ≠ "" →
      (env.clientSetOk (basicUserCfg syscfg (getUserPasswordFromBasicAuth s).1
          (getUserPasswordFromBasicAuth s).2) = true →
        env.serverVersionOk (basicUserCfg syscfg (getUserPasswordFromBasicAuth s).1
          (getUserPasswordFromBasicAuth s).2) = false →
          P3.checkBasicAuth env h syscfg = .error .serverVersionError
        ∧ classify .serverVersionError = .unauthenticated)
      ∧ (env.clientSetOk (basicUserCfg syscfg (getUserPasswordFromBasicAuth s).1
          (getUserPasswordFromBasicAuth s).2) = true →
        env.serverVersionOk (basicUserCfg syscfg (getUserPasswordFromBasicAuth s).1
          (getUserPasswordFromBasicAuth s).2) = true →
          P3.checkBasicAuth env h syscfg =
            .ok (⟨(getUserPasswordFromBasicAuth s).1, []⟩,
                 basicUserCfg syscfg (getUserPasswordFromBasicAuth s).1
                   (getUserPasswordFromBasicAuth s).2))) := by
  refine ⟨fun hd => ⟨?_, rfl⟩, fun s hd hempty => ⟨?_, rfl⟩,
          fun s hd h1 h2 => ⟨fun hcs hsv => ⟨?_, rfl⟩, fun hcs hsv => ?_⟩⟩
  · simp [P3.checkBasicAuth, hd]
  · simp [P3.checkBasicAuth, hd, hempty]
  · simp [P3.checkBasicAuth, hd, h1, h2, hcs, hsv]
  · simp [P3.checkBasicAuth, hd, h1, h2, hcs, hsv]

/-- C5 witness: the verifier evaluated at the payload dTpw (u:p) against
an environment whose server-version probe fails. -/
theorem c5_check_basic_auth_spec_witness :
    P3.checkBasicAuth envBasic "Basic dTpw" cfg0 = .error .serverVersionError :=
  (((c5_check_basic_auth_spec envBasic "Basic dTpw" cfg0).2.2 "u:p"
      (by decide) (by decide) (by decide)).1 rfl rfl).1

/-- C2 counterexample: the claim exempts the version-discovery method
from the version check for streaming calls too; the stream interceptor
has no such whitelist, so a streaming call to GetVersion with an
incompatible client version fails with the version-mismatch error. -/
theorem c2_stream_getversion_counterexample :
    newStreamInterceptor neverCompatible "v9.9.9" envTriv cfg0 ssGV
        ⟨"/hapi.services.tiller.ReleaseService/GetVersion"⟩ (fun _ => none)
      = some (TillerError.versionMismatch "v0.0.0" "v9.9.9")
  ∧ (splitMethod "/hapi.services.tiller.ReleaseService/GetVersion").2 = "GetVersion" :=
  ⟨rfl, rfl⟩

/-- C2 (amended): a unary call with an incompatible client version fails
with the version-mismatch error unless the invoked method is GetVersion,
whose outcome is independent of the version check; the stream interceptor
applies the version check to every method with no exemption. -/
theorem c2_version_gate_amended {Req Resp Msg Err : Type}
    (isCompatible : String → String → Bool) (sv : String) (env : AuthEnv)
    (syscfg : RestConfig) (ctx : Context) (req : Req) (uinfo : UnaryServerInfo)
    (handler : Context → Req → Except TillerError Resp)
    (ss : ServerStream Msg Err) (sinfo : StreamServerInfo)
    (shandler : serverStreamWrapper Msg Err → Option TillerError) :
    (isCompatible (versionFromContext ctx) sv = false →
      (splitMethod uinfo.fullMethod).2 ≠ "GetVersion" →
      newUnaryInterceptor isCompatible sv env syscfg ctx req uinfo handler
        = .error (.versionMismatch (versionFromContext ctx) sv))
  ∧ ((splitMethod uinfo.fullMethod).2 = "GetVersion" →
      newUnaryInterceptor isCompatible sv env syscfg ctx req uinfo handler
        = (match SG.authenticate env ctx syscfg with
           | .error e => .error e
           | .ok ctx2 => handler ctx2 req))
  ∧ (isCompatible (versionFromContext ss.ctx) sv = false →
      newStreamInterceptor isCompatible sv env syscfg ss sinfo shandler
        = some (.versionMismatch (versionFromContext ss.ctx) sv)) := by
  refine ⟨fun hv hm => ?_, fun hm => ?_, fun hv => ?_⟩
  · simp [newUnaryInterceptor, checkClientVersion, hv, hm]
  · cases hcv : checkClientVersion isCompatible sv ctx with
    | none => simp [newUnaryInterceptor, hcv]
    | some e => simp [newUnaryInterceptor, hcv, hm]
  · simp [newStreamInterceptor, checkClientVersion, hv]

/-- C2 witness: the amended gate evaluated at an incompatible unary call
to a non-GetVersion method and at an incompatible streaming call. -/
theorem c2_version_gate_amended_witness :
    newUnaryInterceptor neverCompatible "v9.9.9" envTriv cfg0 ctxIncompat ()
        ⟨"/svc/Install"⟩ (fun _ _ => Except.ok ())
      = .error (.versionMismatch "v0.0.0" "v9.9.9")
  ∧ newStreamInterceptor neverCompatible "v9.9.9" envTriv cfg0 ssGV
        ⟨"/svc/Watch"⟩ (fun _ => none)
      = some (.versionMismatch "v0.0.0" "v9.9.9") :=
  ⟨(c2_version_gate_amended neverCompatible "v9.9.9" envTriv cfg0 ctxIncompat ()
      ⟨"/svc/Install"⟩ (fun _ _ => Except.ok ()) ssGV ⟨"/svc/Watch"⟩
      (fun _ => none)).1 rfl (by decide),
   (c2_version_gate_amended neverCompatible "v9.9.9" envTriv cfg0 ctxIncompat ()
      ⟨"/svc/Install"⟩ (fun _ _ => Except.ok ()) ssGV ⟨"/svc/Watch"⟩
      (fun _ => none)).2.2 rfl⟩

/-- C7: Backend selection is a pure function of the store kind: memory
yields the memory driver with no bootstrap (the equation holds for every
cluster/bootstrap outcome), configmap yields the config-object driver,
the two TPR-backed kinds fail when the resource bootstrap exits and the
inline kind otherwise yields the releases driver, the object-store kind
assembles the stow config from exactly the selected provider's option
fields, and a store type outside the four constants yields an error
rather than a driver. -/
theorem c7_new_storage_selection (env : StorageEnv) (opts : StoreOptions)
    (hcc : env.clientConfigOk = true) (hcs : env.clientSetOk = true) :
    (opts.storeType = StorageMemory →
        NewStorage env opts = .ok (.ok Driver.memory))
  ∧ (opts.storeType = StorageConfigMap →
        NewStorage env opts = .ok (.ok (Driver.configMaps env.ns)))
  ∧ ((opts.storeType = StorageInlineTPR ∨ opts.storeType = StorageObjectStoreTPR) →
      ensureResource env.getTPR env.createTPR = Fatal.exit →
        NewStorage env opts = Fatal.exit)
  ∧ (opts.storeType = StorageInlineTPR →
      ensureResource env.getTPR env.createTPR = Fatal.ok () →
      env.extensionsClientOk = true →
        NewStorage env opts = .ok (.ok (Driver.releases env.ns)))
  ∧ (opts.objectStoreProvider = s3Kind →
        buildStowCfg env opts = .ok (s3StowCfg opts.s3ConfigAccessKeyID
          opts.s3ConfigEndpoint opts.s3ConfigRegion opts.s3ConfigSecretKey))
  ∧ (opts.objectStoreProvider = gcsKind →
        buildStowCfg env opts =
          gcsStowCfg env.readFile opts.gcsConfigJSONKeyPath opts.gcsConfigProjectId)
  ∧ (opts.objectStoreProvider = azureKind →
        buildStowCfg env opts =
          .ok (azureStowCfg opts.azureConfigAccount opts.azureConfigKey))
  ∧ (opts.objectStoreProvider = swiftKind →
        buildStowCfg env opts = .ok (swiftStowCfg opts.swiftConfigKey
          opts.swiftConfigTenantAuthURL opts.swiftConfigTenantName
          opts.swiftConfigUsername))
  ∧ (opts.storeType ≠ StorageMemory → opts.storeType ≠ StorageConfigMap →
      opts.storeType ≠ StorageInlineTPR → opts.storeType ≠ StorageObjectStoreTPR →
        NewStorage env opts = .ok (.error ("Unknow store type " ++ opts.storeType))) := by
  refine ⟨fun h1 => ?_, fun h1 => ?_, fun h1 h2 => ?_, fun h1 h2 h3 => ?_,
          fun hp => ?_, fun hp => ?_, fun hp => ?_, fun hp => ?_,
          fun h1 h2 h3 h4 => ?_⟩
  · simp [NewStorage, hcc, hcs, h1, StorageMemory]
  · simp [NewStorage, hcc, hcs, h1, StorageMemory, StorageConfigMap]
  · rcases h1 with h1 | h1 <;>
      simp [NewStorage, hcc, hcs, h1, h2, StorageMemory, StorageConfigMap,
            StorageInlineTPR, StorageObjectStoreTPR]
  · simp [NewStorage, hcc, hcs, h1, h2, h3, StorageMemory, StorageConfigMap,
          StorageInlineTPR]
  · simp [buildStowCfg, hp, s3Kind]
  · simp [buildStowCfg, hp, s3Kind, gcsKind]
  · simp [buildStowCfg, hp, s3Kind, gcsKind, azureKind]
  · simp [buildStowCfg, hp, s3Kind, gcsKind, azureKind, swiftKind]
  · simp only [StorageMemory] at h1
    simp only [StorageConfigMap] at h2
    simp only [StorageInlineTPR] at h3
    simp only [StorageObjectStoreTPR] at h4
    simp [NewStorage, hcc, hcs, h1, h2, h3, h4, StorageMemory, StorageConfigMap,
          StorageInlineTPR, StorageObjectStoreTPR]

/-- C7 witness: the factory evaluated at the memory kind and at an
unknown kind. -/
theorem c7_new_storage_selection_witness :
    NewStorage envStor optsMem = .ok (.ok Driver.memory)
  ∧ NewStorage envStor optsBogus = .ok (.error "Unknow store type mysql") :=
  ⟨(c7_new_storage_selection envStor optsMem rfl rfl).1 rfl,
   ((c7_new_storage_selection envStor optsBogus rfl rfl).2.2.2.2.2.2.2.2
      (by decide) (by decide) (by decide) (by decide)).trans rfl⟩
